import Mathlib

/-!
Verification development for the gsuite-mcp repository.

We shallowly embed the parts of the code the properties below are about:

* `src/gsuite_mcp/utils/retry.py` — `retry_with_backoff` and
  `is_retryable_error`;
* `src/gsuite_mcp/auth/fake_credentials.py` — `FakeCredentials.__init__`
  (token resolution) and `FakeCredentials.apply`;
* `src/gsuite_mcp/services/gmail.py` — `GmailService.__init__`
  (credential/endpoint resolution) and `GmailService.list_messages`
  (pagination wrapped by the retry decorator).

Python exceptions are modelled with `Except`; an operation that may behave
differently on successive invocations is modelled as a function of its
invocation index (or, where the number of underlying calls is itself the
observable, as a state-threading function on a call counter).  Float delays
are modelled as rationals.
-/

namespace GsuiteMcp

/-- An exception as classified by the retry loop: `googleapiclient`'s
`HttpError` carries `e.resp.status`; any other exception carries no status
and is not caught by `except HttpError`. -/
inductive PyErr where
  | http (status : Nat)
  | other
deriving DecidableEq, Repr

/-- Observable outcome of one call to the wrapper produced by
`retry_with_backoff`: the result (or the exception that propagated), the
number of times the wrapped function was invoked, and the list of delays
passed to `time.sleep`, in order. -/
structure RetryResult (α : Type) where
  result : Except PyErr α
  calls : Nat
  delays : List ℚ

/-- The `for attempt in range(max_retries + 1)` loop of
`retry_with_backoff`'s `wrapper` (retry.py lines 46-71).  `remaining` is
`max_retries - attempt`, so `remaining = 0` exactly when
`attempt == max_retries`.  A success returns immediately; an exception that
is not an `HttpError` is not caught and propagates; an `HttpError` with a
4xx status other than 429 is re-raised at once; otherwise, on the last
attempt the error is re-raised, and before any other attempt the loop
sleeps `delay` and multiplies `delay` by `backoff_factor`. -/
def retryGo {α : Type} (op : Nat → Except PyErr α) (backoff : ℚ) :
    Nat → Nat → ℚ → List ℚ → RetryResult α
  | remaining, attempt, delay, acc =>
    match op attempt with
    | .ok v => ⟨.ok v, attempt + 1, acc.reverse⟩
    | .error .other => ⟨.error .other, attempt + 1, acc.reverse⟩
    | .error (.http s) =>
      if 400 ≤ s ∧ s < 500 ∧ s ≠ 429 then
        ⟨.error (.http s), attempt + 1, acc.reverse⟩
      else
        match remaining with
        | 0 => ⟨.error (.http s), attempt + 1, acc.reverse⟩
        | r + 1 => retryGo op backoff r (attempt + 1) (delay * backoff) (delay :: acc)

/-- `retry_with_backoff(func, max_retries, initial_delay, backoff_factor)`
(retry.py).  The source's defaults are `max_retries=5`,
`initial_delay=1.0`, `backoff_factor=2.0`.  `op i` is the behaviour of
`func` on its `i`-th invocation (0-indexed). -/
def retry_with_backoff {α : Type} (op : Nat → Except PyErr α)
    (max_retries : Nat) (initial_delay backoff_factor : ℚ) : RetryResult α :=
  retryGo op backoff_factor max_retries 0 initial_delay []

/-- `is_retryable_error` (retry.py lines 82-94): an error is retryable iff
it is an `HttpError` whose status is 429, 500 or 503. -/
def is_retryable_error : PyErr → Bool
  | .http s => s = 429 || s = 500 || s = 503
  | .other => false

/-- The geometric delay schedule starting at `d` with factor `b`:
`[d, d*b, d*b^2, ...]` of length `m`. -/
def geomDelays (d b : ℚ) : Nat → List ℚ
  | 0 => []
  | m + 1 => d :: geomDelays (d * b) b m

/-! ## Fake credentials (`auth/fake_credentials.py`) and
`GmailService.__init__` (`services/gmail.py`) -/

/-- The environment variables read by the code: `ISH_MODE`,
`ISH_BASE_URL`, `ISH_USER`.  `none` models an unset variable. -/
structure IshEnv where
  ish_mode : Option String
  ish_base_url : Option String
  ish_user : Option String

/-- Python truthiness of an optional string: `None` and `""` are falsy,
every other string is truthy. -/
def truthy : Option String → Bool
  | none => false
  | some s => !(s == "")

/-- Python's `str.lower()` (the values compared here are ASCII):
lowercases each character of the string. -/
def strLower (s : String) : String := ⟨s.data.map Char.toLower⟩

namespace FakeCredentials

/-- Token resolution in `FakeCredentials.__init__` (fake_credentials.py
lines 15-35): an explicit (truthy) `token` is used verbatim; else a truthy
`user` gives `"user:" + user`; else a truthy `ISH_USER` environment value
gives `"user:" + ISH_USER`; else the constant `"user:testuser"`. -/
def resolveToken (env : IshEnv) (token user : Option String) : String :=
  if truthy token then token.getD ""
  else if truthy user then "user:" ++ user.getD ""
  else if truthy env.ish_user then "user:" ++ env.ish_user.getD ""
  else "user:testuser"

/-- `FakeCredentials.apply` (fake_credentials.py lines 41-48): sets
`headers['Authorization'] = f'Bearer {self.token}'`.  The optional
`token` override parameter is accepted and ignored by the source.
Headers are modelled as a map from header name to optional value. -/
def apply (self_token : String) (headers : String → Option String)
    (token : Option String) : String → Option String :=
  fun k => if k = "Authorization" then some ("Bearer " ++ self_token) else headers k

end FakeCredentials

/-- The credentials object held by a service: either real OAuth2
`Credentials` (opaque here) or `FakeCredentials` with its resolved
token. -/
inductive Creds where
  | real
  | fake (token : String)
deriving DecidableEq, Repr

/-- The observable state `GmailService.__init__` establishes: the
credentials used to build the client, `self._ish_mode` and
`self._api_base_url`. -/
structure GmailInitResult where
  credentials : Creds
  ish_mode : Bool
  api_base_url : Option String
deriving DecidableEq, Repr

namespace GmailService

/-- `GmailService.__init__` (gmail.py lines 30-82): reads `ISH_MODE`
(ish mode iff its lowercased value is `"true"`), defaults
`api_base_url` from `ISH_BASE_URL` in ish mode, synthesizes
`FakeCredentials` when a base URL is present and none were given (from
`auth_token` when that is given), raises `ValueError` when no
credentials result, and otherwise records ish mode and the base URL. -/
def init (env : IshEnv) (credentials : Option Creds)
    (api_base_url auth_token : Option String) : Except String GmailInitResult :=
  let ish_mode := strLower (env.ish_mode.getD "") == "true"
  let api_base_url :=
    if ish_mode && !truthy api_base_url then
      some (env.ish_base_url.getD "http://localhost:9000")
    else api_base_url
  let credentials :=
    if truthy api_base_url && credentials.isNone && !truthy auth_token then
      some (Creds.fake (FakeCredentials.resolveToken env none none))
    else if truthy api_base_url && truthy auth_token && credentials.isNone then
      some (Creds.fake (FakeCredentials.resolveToken env auth_token none))
    else credentials
  match credentials with
  | none => .error "credentials are required unless using ish mode"
  | some c =>
    if truthy api_base_url then .ok ⟨c, true, api_base_url⟩
    else .ok ⟨c, false, none⟩

end GmailService

/-! ## `GmailService.list_messages` (gmail.py lines 84-127) -/

/-- One page of the `users().messages().list` response: the `messages`
list (message records, modelled by numbers) and the optional
`nextPageToken`. -/
structure Page where
  messages : List Nat
  nextPageToken : Option String
deriving DecidableEq, Repr

/-- A backend: given the global count of calls issued so far and the
`pageToken` of the request (`none` for the first page), the response of
`list(**request_params).execute()`.  Threading the call count lets a
backend fail transiently and makes the number of issued requests
observable. -/
abbrev Backend := Nat → Option String → Except PyErr Page

namespace GmailService

/-- The `while 'nextPageToken' in response and len(messages) < max_results`
loop of `list_messages`.  `fuel` bounds the number of iterations (the
source's loop is bounded by the server's finite token chain); concrete
facts below use ample fuel.  Returns the accumulated messages (or the
first error, re-raised) and the updated call count. -/
def paginateLoop (backend : Backend) (max_results : Nat) :
    Nat → Nat → Option String → List Nat → Except PyErr (List Nat) × Nat
  | _, c, none, msgs => (.ok msgs, c)
  | 0, c, some _, msgs => (.ok msgs, c)
  | fuel + 1, c, some t, msgs =>
    if msgs.length < max_results then
      match backend c (some t) with
      | .error e => (.error e, c + 1)
      | .ok p => paginateLoop backend max_results fuel (c + 1) p.nextPageToken (msgs ++ p.messages)
    else (.ok msgs, c)

/-- The undecorated body of `list_messages`: first-page request, the
pagination loop, then truncation `messages[:max_results]`.  An
`HttpError` is logged and re-raised unchanged (gmail.py lines 124-127). -/
def listMessagesBody (backend : Backend) (max_results fuel : Nat) (c : Nat) :
    Except PyErr (List Nat) × Nat :=
  match backend c none with
  | .error e => (.error e, c + 1)
  | .ok p =>
    match paginateLoop backend max_results fuel (c + 1) p.nextPageToken p.messages with
    | (.ok msgs, c') => (.ok (msgs.take max_results), c')
    | (.error e, c') => (.error e, c')

/-- The loop of `retry_with_backoff` (retry.py lines 50-71) for an
operation that itself issues backend calls: the call counter threads
through failed attempts.  Control flow is exactly that of `retryGo`;
the delay bookkeeping, irrelevant to call counts, is omitted. -/
def retryGoS {α : Type} (op : Nat → Except PyErr α × Nat) :
    Nat → Nat → Except PyErr α × Nat
  | r, c =>
    match op c with
    | (.ok v, c') => (.ok v, c')
    | (.error .other, c') => (.error .other, c')
    | (.error (.http s), c') =>
      if 400 ≤ s ∧ s < 500 ∧ s ≠ 429 then (.error (.http s), c')
      else
        match r with
        | 0 => (.error (.http s), c')
        | r' + 1 => retryGoS op r' c'

/-- `list_messages` as decorated in the source: `@retry_with_backoff`
wraps the whole method — first-page request, pagination loop and
truncation together — with the default budget `max_retries = 5`. -/
def list_messages (backend : Backend) (max_results fuel : Nat) :
    Except PyErr (List Nat) × Nat :=
  retryGoS (listMessagesBody backend max_results fuel) 5 0

/-- Modelled from the spec's words, for comparison with the source's
`list_messages`: a single page request wrapped by the retry executor on
its own. -/
def fetchPageRetried (backend : Backend) (tok : Option String) (c : Nat) :
    Except PyErr Page × Nat :=
  retryGoS (fun c => (backend c tok, c + 1)) 5 c

/-- Modelled from the spec's words: the pagination loop with each page
request independently wrapped by the retry executor. -/
def perPageLoop (backend : Backend) (max_results : Nat) :
    Nat → Nat → Option String → List Nat → Except PyErr (List Nat) × Nat
  | _, c, none, msgs => (.ok msgs, c)
  | 0, c, some _, msgs => (.ok msgs, c)
  | fuel + 1, c, some t, msgs =>
    if msgs.length < max_results then
      match fetchPageRetried backend (some t) c with
      | (.error e, c') => (.error e, c')
      | (.ok p, c') => perPageLoop backend max_results fuel c' p.nextPageToken (msgs ++ p.messages)
    else (.ok msgs, c)

/-- Modelled from the spec's words: message listing with per-page-request
retry granularity. -/
def listMessagesPerPage (backend : Backend) (max_results fuel : Nat) :
    Except PyErr (List Nat) × Nat :=
  match fetchPageRetried backend none 0 with
  | (.error e, c) => (.error e, c)
  | (.ok p, c) =>
    match perPageLoop backend max_results fuel c p.nextPageToken p.messages with
    | (.ok msgs, c') => (.ok (msgs.take max_results), c')
    | (.error e, c') => (.error e, c')

end GmailService

/-- A backend whose first-page request always succeeds (one message,
token `"t"`) and whose second-page request fails with 429 on its first
occurrence and succeeds afterwards. -/
def cexBackend : Backend
  | _, none => .ok ⟨[1], some "t"⟩
  | c, some _ => if c ≤ 1 then .error (.http 429) else .ok ⟨[2], none⟩

/-- The spec's end-to-end scenario operation: fails with 429, then 503,
then succeeds with `"ok"`. -/
def specScenarioOp : Nat → Except PyErr String
  | 0 => .error (.http 429)
  | 1 => .error (.http 503)
  | _ => .ok "ok"

lemma geomDelays_length (b : ℚ) : ∀ (m : Nat) (d : ℚ), (geomDelays d b m).length = m := by
  intro m
  induction m with
  | zero => intro d; rfl
  | succ m ih => intro d; simp [geomDelays, ih]

lemma geomDelays_getD (b : ℚ) :
    ∀ (m j : Nat) (d : ℚ), j < m → (geomDelays d b m).getD j 0 = d * b ^ j := by
  intro m
  induction m with
  | zero => intro j d h; omega
  | succ m ih =>
    intro j d h
    cases j with
    | zero => simp [geomDelays]
    | succ j =>
      have := ih j (d * b) (by omega)
      simp only [geomDelays, List.getD_cons_succ, this]
      ring

/-- Unfolding `retryGo` when the current invocation fails with a client
error (4xx other than 429): re-raise at once. -/
lemma retryGo_client {α : Type} (op : Nat → Except PyErr α) (b : ℚ) (s : Nat)
    (r a : Nat) (d : ℚ) (acc : List ℚ)
    (hop : op a = .error (.http s)) (hs : 400 ≤ s ∧ s < 500 ∧ s ≠ 429) :
    retryGo op b r a d acc = ⟨.error (.http s), a + 1, acc.reverse⟩ := by
  rw [retryGo, hop]
  simp only [if_pos hs]

/-- Unfolding `retryGo` when the current invocation fails with an
exception carrying no status: not caught, propagates. -/
lemma retryGo_other {α : Type} (op : Nat → Except PyErr α) (b : ℚ)
    (r a : Nat) (d : ℚ) (acc : List ℚ)
    (hop : op a = .error .other) :
    retryGo op b r a d acc = ⟨.error .other, a + 1, acc.reverse⟩ := by
  rw [retryGo, hop]

/-- If every invocation fails with the same non-client-error status, the
loop runs through all its attempts, sleeping the geometric schedule, and
the error propagates after the last one. -/
lemma retryGo_exhaust {α : Type} (op : Nat → Except PyErr α) (b : ℚ) (s : Nat)
    (hs : ¬(400 ≤ s ∧ s < 500 ∧ s ≠ 429))
    (hop : ∀ i, op i = .error (.http s)) :
    ∀ (r a : Nat) (d : ℚ) (acc : List ℚ),
      retryGo op b r a d acc =
        ⟨.error (.http s), a + r + 1, acc.reverse ++ geomDelays d b r⟩ := by
  intro r
  induction r with
  | zero =>
    intro a d acc
    rw [retryGo, hop a]
    simp [if_neg hs, geomDelays]
  | succ r ih =>
    intro a d acc
    rw [retryGo, hop a]
    simp only [if_neg hs]
    rw [ih (a + 1) (d * b) (d :: acc)]
    simp [geomDelays]
    omega

/-- If the first `k` invocations (from index `a`) fail with non-client
statuses and invocation `a + k` succeeds with `v`, and `k` retries fit in
the budget `r`, the loop returns `v` after `k + 1` invocations, having
slept `k` geometric delays. -/
lemma retryGo_success {α : Type} (op : Nat → Except PyErr α) (b : ℚ) (v : α) :
    ∀ (k r a : Nat) (d : ℚ) (acc : List ℚ), k ≤ r →
      (∀ i, i < k → ∃ s, op (a + i) = .error (.http s) ∧ ¬(400 ≤ s ∧ s < 500 ∧ s ≠ 429)) →
      op (a + k) = .ok v →
      retryGo op b r a d acc = ⟨.ok v, a + k + 1, acc.reverse ++ geomDelays d b k⟩ := by
  intro k
  induction k with
  | zero =>
    intro r a d acc _ _ hsucc
    rw [retryGo]
    rw [show a + 0 = a from rfl] at hsucc
    rw [hsucc]
    simp [geomDelays]
  | succ k ih =>
    intro r a d acc hkr hfail hsucc
    obtain ⟨s, hop0, hs⟩ := hfail 0 (Nat.succ_pos k)
    rw [show a + 0 = a from rfl] at hop0
    obtain ⟨r', rfl⟩ : ∃ r', r = r' + 1 := ⟨r - 1, by omega⟩
    rw [retryGo, hop0]
    simp only [if_neg hs]
    rw [ih r' (a + 1) (d * b) (d :: acc) (by omega)
      (fun i hi => by
        obtain ⟨t, hop, ht⟩ := hfail (i + 1) (by omega)
        exact ⟨t, by rw [show a + 1 + i = a + (i + 1) by omega]; exact hop, ht⟩)
      (by rw [show a + 1 + k = a + (k + 1) by omega]; exact hsucc)]
    simp [geomDelays]
    omega

/-- The delays slept by `retryGo` extend the accumulator by a geometric
schedule starting at the current delay. -/
lemma retryGo_delays {α : Type} (op : Nat → Except PyErr α) (b : ℚ) :
    ∀ (r a : Nat) (d : ℚ) (acc : List ℚ),
      ∃ m, (retryGo op b r a d acc).delays = acc.reverse ++ geomDelays d b m := by
  intro r
  induction r with
  | zero =>
    intro a d acc
    refine ⟨0, ?_⟩
    rw [retryGo]
    rcases hop : op a with e | v
    · rcases e with s | _
      · by_cases hs : 400 ≤ s ∧ s < 500 ∧ s ≠ 429 <;> simp [hs, geomDelays]
      · simp [geomDelays]
    · simp [geomDelays]
  | succ r ih =>
    intro a d acc
    rw [retryGo]
    rcases hop : op a with e | v
    · rcases e with s | _
      · by_cases hs : 400 ≤ s ∧ s < 500 ∧ s ≠ 429
        · exact ⟨0, by simp [hs, geomDelays]⟩
        · obtain ⟨m, hm⟩ := ih (a + 1) (d * b) (d :: acc)
          exact ⟨m + 1, by simp [hs, hm, geomDelays]⟩
      · exact ⟨0, by simp [geomDelays]⟩
    · exact ⟨0, by simp [geomDelays]⟩

/-- Any successful value produced by `retryGoS` is a successful value of
the wrapped operation at some call-counter state. -/
lemma retryGoS_ok {α : Type} (op : Nat → Except PyErr α × Nat) (P : α → Prop)
    (hop : ∀ c v, (op c).1 = .ok v → P v) :
    ∀ (r c : Nat) (v : α), (GmailService.retryGoS op r c).1 = .ok v → P v := by
  intro r
  induction r with
  | zero =>
    intro c v h
    rw [GmailService.retryGoS] at h
    rcases hc : op c with ⟨res, c'⟩
    rw [hc] at h
    rcases res with e | w
    · rcases e with s | _
      · by_cases hs : 400 ≤ s ∧ s < 500 ∧ s ≠ 429 <;> simp [hs] at h
      · simp at h
    · simp at h
      exact h ▸ hop c w (by rw [hc])
  | succ r ih =>
    intro c v h
    rw [GmailService.retryGoS] at h
    rcases hc : op c with ⟨res, c'⟩
    rw [hc] at h
    rcases res with e | w
    · rcases e with s | _
      · by_cases hs : 400 ≤ s ∧ s < 500 ∧ s ≠ 429
        · simp [hs] at h
        · simp only [if_neg hs] at h
          exact ih c' v h
      · simp at h
    · simp at h
      exact h ▸ hop c w (by rw [hc])

/-- Any successful list produced by the body of `list_messages` has been
truncated to at most `max_results` elements. -/
lemma listMessagesBody_ok_length (backend : Backend) (max_results fuel c : Nat)
    (l : List Nat)
    (h : (GmailService.listMessagesBody backend max_results fuel c).1 = .ok l) :
    l.length ≤ max_results := by
  rw [GmailService.listMessagesBody] at h
  rcases h0 : backend c none with e | p
  · rw [h0] at h
    simp at h
  · rw [h0] at h
    dsimp only at h
    rcases h1 : GmailService.paginateLoop backend max_results fuel (c + 1)
        p.nextPageToken p.messages with ⟨res, c'⟩
    rw [h1] at h
    rcases res with e | msgs
    · simp at h
    · simp at h
      rw [← h]
      simp [List.length_take]

/-! ## Claims about the retry executor -/

/-- Claim C1, counterexample: status 502 is outside the retryable set
{429, 500, 503} — `is_retryable_error` reports it non-retryable — yet
`retry_with_backoff` does retry it: with `max_retries = 1` an operation
that always fails with 502 is invoked twice, not once, so a 502 error
does not surface to the caller without retry. -/
theorem claim_C1_counterexample :
    is_retryable_error (.http 502) = false ∧
    (retry_with_backoff (fun _ => (.error (.http 502) : Except PyErr Unit)) 1 1 2).calls = 2 := by
  decide

/-- Claim C1, amended: the executor re-raises without any retry exactly
the status-bearing failures whose status is a 4xx other than 429; every
other status-bearing failure (all of {429, 500, 503}, but also e.g. 502)
is retried and surfaces only after exhaustion of the `N + 1` attempts. -/
theorem claim_C1_amended {α : Type} (op : Nat → Except PyErr α) (s N : Nat) (d b : ℚ)
    (hop : ∀ i, op i = .error (.http s)) :
    (retry_with_backoff op N d b).result = .error (.http s) ∧
    ((400 ≤ s ∧ s < 500 ∧ s ≠ 429) → (retry_with_backoff op N d b).calls = 1) ∧
    (¬(400 ≤ s ∧ s < 500 ∧ s ≠ 429) → (retry_with_backoff op N d b).calls = N + 1) := by
  by_cases hs : 400 ≤ s ∧ s < 500 ∧ s ≠ 429
  · rw [retry_with_backoff, retryGo_client op b s N 0 d [] (hop 0) hs]
    exact ⟨rfl, fun _ => rfl, fun h => absurd hs h⟩
  · rw [retry_with_backoff, retryGo_exhaust op b s hs hop N 0 d []]
    exact ⟨rfl, fun h => absurd h hs, fun _ => by simp⟩

/-- Witness for the amended C1 at status 502, `max_retries = 1`. -/
theorem claim_C1_amended_witness :
    (retry_with_backoff (fun _ => (.error (.http 502) : Except PyErr Unit)) 1 1 2).result
      = .error (.http 502) ∧
    (retry_with_backoff (fun _ => (.error (.http 502) : Except PyErr Unit)) 1 1 2).calls = 1 + 1 := by
  have h := claim_C1_amended (fun _ => (.error (.http 502) : Except PyErr Unit)) 502 1 1 2
    (fun _ => rfl)
  exact ⟨h.1, h.2.2 (by decide)⟩

/-- Claim C2: with `max_retries = N`, an operation that fails on every
invocation with a fixed retryable status (per `is_retryable_error`) is
invoked exactly `N + 1` times, and the final attempt's error propagates. -/
theorem claim_C2 {α : Type} (op : Nat → Except PyErr α) (N : Nat) (d b : ℚ) (s : Nat)
    (hret : is_retryable_error (.http s) = true)
    (hop : ∀ i, op i = .error (.http s)) :
    (retry_with_backoff op N d b).calls = N + 1 ∧
    (retry_with_backoff op N d b).result = .error (.http s) := by
  have hs : ¬(400 ≤ s ∧ s < 500 ∧ s ≠ 429) := by
    have h3 : (s = 429 ∨ s = 500) ∨ s = 503 := by simpa [is_retryable_error] using hret
    rcases h3 with (rfl | rfl) | rfl <;> simp
  rw [retry_with_backoff, retryGo_exhaust op b s hs hop N 0 d []]
  exact ⟨by simp, rfl⟩

/-- Witness for C2: constant 429 failure, `max_retries = 5`, six calls. -/
theorem claim_C2_witness :
    (retry_with_backoff (fun _ => (.error (.http 429) : Except PyErr Unit)) 5 1 2).calls = 5 + 1 ∧
    (retry_with_backoff (fun _ => (.error (.http 429) : Except PyErr Unit)) 5 1 2).result
      = .error (.http 429) :=
  claim_C2 (fun _ => .error (.http 429)) 5 1 2 429 (by decide) (fun _ => rfl)

/-- Claim C3: an operation that fails with retryable statuses on its
first `k` invocations (`k ≤ max_retries`) and succeeds with `v` on
invocation `k + 1` yields `v`, with exactly `k + 1` invocations and no
error raised. -/
theorem claim_C3 {α : Type} (op : Nat → Except PyErr α) (k N : Nat) (d b : ℚ) (v : α)
    (hk : k ≤ N)
    (hfail : ∀ i, i < k → ∃ s, op i = .error (.http s) ∧ is_retryable_error (.http s) = true)
    (hsucc : op k = .ok v) :
    (retry_with_backoff op N d b).result = .ok v ∧
    (retry_with_backoff op N d b).calls = k + 1 := by
  have hfail' : ∀ i, i < k →
      ∃ s, op (0 + i) = .error (.http s) ∧ ¬(400 ≤ s ∧ s < 500 ∧ s ≠ 429) := by
    intro i hi
    obtain ⟨s, h1, h2⟩ := hfail i hi
    refine ⟨s, by simpa using h1, ?_⟩
    have h3 : (s = 429 ∨ s = 500) ∨ s = 503 := by simpa [is_retryable_error] using h2
    rcases h3 with (rfl | rfl) | rfl <;> simp
  rw [retry_with_backoff, retryGo_success op b v k N 0 d [] hk hfail' (by simpa using hsucc)]
  exact ⟨rfl, by simp⟩

/-- Witness for C3: the spec's end-to-end scenario — policy
`(max_retries=5, initial_delay=1, backoff_factor=2)`, failures 429 then
503, then success `"ok"`: result `"ok"`, three invocations. -/
theorem claim_C3_witness :
    (retry_with_backoff specScenarioOp 5 1 2).result = .ok "ok" ∧
    (retry_with_backoff specScenarioOp 5 1 2).calls = 2 + 1 :=
  claim_C3 specScenarioOp 2 5 1 2 "ok" (by omega)
    (fun i hi => by
      interval_cases i
      · exact ⟨429, rfl, rfl⟩
      · exact ⟨503, rfl, rfl⟩)
    rfl

/-- Claim C4: the delay slept before the `k`-th retried invocation
(`k ≥ 1`) is exactly `initial_delay * backoff_factor ^ (k - 1)` — a
geometric sequence with no jitter and no cap. -/
theorem claim_C4 {α : Type} (op : Nat → Except PyErr α) (N : Nat) (d b : ℚ) (k : Nat)
    (h1 : 1 ≤ k) (h2 : k ≤ (retry_with_backoff op N d b).delays.length) :
    (retry_with_backoff op N d b).delays.getD (k - 1) 0 = d * b ^ (k - 1) := by
  obtain ⟨m, hm⟩ := retryGo_delays op b N 0 d []
  rw [retry_with_backoff] at h2 ⊢
  rw [hm] at h2 ⊢
  simp only [List.reverse_nil, List.nil_append] at h2 ⊢
  have hlen : (geomDelays d b m).length = m := geomDelays_length b m d
  exact geomDelays_getD b m (k - 1) d (by omega)

/-- Witness for C4: constant 429 failure, `max_retries = 3`, delays
`[1, 2, 4]`; the delay before the second retry is `1 * 2 ^ 1`. -/
theorem claim_C4_witness :
    (retry_with_backoff (fun _ => (.error (.http 429) : Except PyErr Unit)) 3 1 2).delays.getD
      (2 - 1) 0 = 1 * 2 ^ (2 - 1) :=
  claim_C4 (fun _ => .error (.http 429)) 3 1 2 2 (by decide) (by decide)

/-- Claim C5: a failure that is either status-bearing with status in
400–499 excluding 429, or carries no status at all, is re-raised after
exactly one invocation, with no retry and no delay slept. -/
theorem claim_C5 {α : Type} (op : Nat → Except PyErr α) (N : Nat) (d b : ℚ) (e : PyErr)
    (hop : op 0 = .error e)
    (he : (∃ s, e = .http s ∧ 400 ≤ s ∧ s < 500 ∧ s ≠ 429) ∨ e = .other) :
    (retry_with_backoff op N d b).result = .error e ∧
    (retry_with_backoff op N d b).calls = 1 ∧
    (retry_with_backoff op N d b).delays = [] := by
  rcases he with ⟨s, rfl, hs⟩ | rfl
  · rw [retry_with_backoff, retryGo_client op b s N 0 d [] hop hs]
    exact ⟨rfl, rfl, rfl⟩
  · rw [retry_with_backoff, retryGo_other op b N 0 d [] hop]
    exact ⟨rfl, rfl, rfl⟩

/-- Witness for C5 at status 404 with `max_retries = 5`. -/
theorem claim_C5_witness :
    (retry_with_backoff (fun _ => (.error (.http 404) : Except PyErr Unit)) 5 1 2).result
      = .error (.http 404) ∧
    (retry_with_backoff (fun _ => (.error (.http 404) : Except PyErr Unit)) 5 1 2).calls = 1 ∧
    (retry_with_backoff (fun _ => (.error (.http 404) : Except PyErr Unit)) 5 1 2).delays = [] :=
  claim_C5 (fun _ => .error (.http 404)) 5 1 2 (.http 404) rfl (.inl ⟨404, rfl, by omega⟩)

/-! ## Claims about `GmailService` -/

/-- Claim C6, counterexample: with `cexBackend` (second-page request
fails once with 429), the source's `list_messages` — whose
`@retry_with_backoff` decorator wraps the whole method — issues 4
backend requests, re-fetching the first page; under per-page-request
retry wrapping (`listMessagesPerPage`, modelled from the spec's words)
the same listing issues only 3 requests.  So each individual page
request is not independently wrapped by the retry executor. -/
theorem claim_C6_counterexample :
    (GmailService.list_messages cexBackend 10 10).2 = 4 ∧
    (GmailService.listMessagesPerPage cexBackend 10 10).2 = 3 ∧
    (GmailService.list_messages cexBackend 10 10).1
      = (GmailService.listMessagesPerPage cexBackend 10 10).1 :=
  ⟨by decide, by decide, rfl⟩

/-- Claim C6, amended: pagination continues issuing subsequent-page
requests until the requested count is reached or no further page token
is returned, every successfully returned list is truncated to the
requested count — and the retry executor wraps the entire listing
operation (body, pagination loop and truncation together), not each
page request independently. -/
theorem claim_C6_amended :
    (∀ (backend : Backend) (max_results fuel : Nat) (l : List Nat),
        (GmailService.list_messages backend max_results fuel).1 = .ok l →
        l.length ≤ max_results) ∧
    (∀ (backend : Backend) (max_results fuel : Nat),
        GmailService.list_messages backend max_results fuel =
          GmailService.retryGoS (GmailService.listMessagesBody backend max_results fuel) 5 0) := by
  constructor
  · intro backend mr fuel l h
    exact retryGoS_ok _ (fun l => l.length ≤ mr)
      (fun c v hv => listMessagesBody_ok_length backend mr fuel c v hv) 5 0 l h
  · intro backend mr fuel
    rfl

/-- Witness for the amended C6: a single three-message page with
`max_results = 2` yields a list of length at most 2. -/
theorem claim_C6_amended_witness : ([1, 2] : List Nat).length ≤ 2 :=
  claim_C6_amended.1 (fun _ _ => .ok ⟨[1, 2, 3], none⟩) 2 5 [1, 2] rfl

/-- Claim C7: credential resolution at facade construction: an explicit
endpoint override with no identity and no token synthesizes a fake
identity; an endpoint override with an explicit token and no identity
yields a fake identity carrying exactly that token; no endpoint override
with ish mode disabled and no identity raises the configuration error at
construction time. -/
theorem claim_C7 (env : IshEnv) (u t : String) (tok : Option String) :
    (u ≠ "" → GmailService.init env none (some u) none
      = .ok ⟨.fake (FakeCredentials.resolveToken env none none), true, some u⟩) ∧
    (u ≠ "" → t ≠ "" → GmailService.init env none (some u) (some t)
      = .ok ⟨.fake t, true, some u⟩) ∧
    (strLower (env.ish_mode.getD "") ≠ "true" →
      GmailService.init env none none tok
        = .error "credentials are required unless using ish mode") := by
  refine ⟨fun hu => ?_, fun hu ht => ?_, fun hmode => ?_⟩
  · simp [GmailService.init, truthy, hu]
  · simp [GmailService.init, truthy, hu, ht, FakeCredentials.resolveToken]
  · simp [GmailService.init, truthy, hmode]

/-- Witness for C7 with base URL `"http://x"`, token `"user:admin"` and
an empty environment. -/
theorem claim_C7_witness :
    GmailService.init ⟨none, none, none⟩ none (some "http://x") none
      = .ok ⟨.fake (FakeCredentials.resolveToken ⟨none, none, none⟩ none none), true,
          some "http://x"⟩ ∧
    GmailService.init ⟨none, none, none⟩ none (some "http://x") (some "user:admin")
      = .ok ⟨.fake "user:admin", true, some "http://x"⟩ ∧
    GmailService.init ⟨none, none, none⟩ none none none
      = .error "credentials are required unless using ish mode" := by
  obtain ⟨h1, h2, h3⟩ := claim_C7 ⟨none, none, none⟩ "http://x" "user:admin" none
  exact ⟨h1 (by decide), h2 (by decide) (by decide), h3 (by decide)⟩

/-- Claim C8, counterexample: constructed from the explicit token string
`""`, the fake identity's token is `"user:testuser"`, not the explicit
string verbatim — Python truthiness treats the empty token as absent. -/
theorem claim_C8_counterexample :
    FakeCredentials.resolveToken ⟨none, none, none⟩ (some "") none = "user:testuser" ∧
    "user:testuser" ≠ "" := by
  decide

/-- Claim C8, amended: token precedence explicit token > explicit
username > ambient default username > built-in fallback, where an empty
string counts as absent: a non-empty explicit token is used verbatim;
else a non-empty username `u` gives `"user:" ++ u`; else a non-empty
ambient default `d` gives `"user:" ++ d`; else `"user:testuser"`. -/
theorem claim_C8_amended (env : IshEnv) (t u : String) (user : Option String) :
    (t ≠ "" → FakeCredentials.resolveToken env (some t) user = t) ∧
    (u ≠ "" → FakeCredentials.resolveToken env none (some u) = "user:" ++ u) ∧
    (∀ d, env.ish_user = some d → d ≠ "" →
      FakeCredentials.resolveToken env none none = "user:" ++ d) ∧
    (env.ish_user = none → FakeCredentials.resolveToken env none none = "user:testuser") := by
  refine ⟨fun ht => ?_, fun hu => ?_, fun d hd hne => ?_, fun hnone => ?_⟩
  · simp [FakeCredentials.resolveToken, truthy, ht]
  · simp [FakeCredentials.resolveToken, truthy, hu]
  · simp [FakeCredentials.resolveToken, truthy, hd, hne]
  · simp [FakeCredentials.resolveToken, truthy, hnone]

/-- Witness for the amended C8: the spec's four resolution examples. -/
theorem claim_C8_amended_witness :
    FakeCredentials.resolveToken ⟨none, none, some "charlie"⟩ (some "user:alice") none
      = "user:alice" ∧
    FakeCredentials.resolveToken ⟨none, none, some "charlie"⟩ none (some "bob")
      = "user:bob" ∧
    FakeCredentials.resolveToken ⟨none, none, some "charlie"⟩ none none = "user:charlie" ∧
    FakeCredentials.resolveToken ⟨none, none, none⟩ none none = "user:testuser" := by
  obtain ⟨h1, h2, h3, _⟩ :=
    claim_C8_amended ⟨none, none, some "charlie"⟩ "user:alice" "bob" none
  obtain ⟨_, _, _, h4⟩ := claim_C8_amended ⟨none, none, none⟩ "user:alice" "bob" none
  exact ⟨h1 (by decide), h2 (by decide), h3 "charlie" rfl (by decide), h4 rfl⟩

/-- Claim C9: applying a fake identity sets exactly the `Authorization`
key to `"Bearer " ++ token`, leaves every other key unchanged, and on
the empty map yields the map with that single entry. -/
theorem claim_C9 (tok : String) (headers : String → Option String)
    (o : Option String) (k : String) :
    FakeCredentials.apply tok headers o "Authorization" = some ("Bearer " ++ tok) ∧
    (k ≠ "Authorization" → FakeCredentials.apply tok headers o k = headers k) ∧
    FakeCredentials.apply tok (fun _ => none) o
      = fun k => if k = "Authorization" then some ("Bearer " ++ tok) else none := by
  refine ⟨rfl, fun hk => ?_, rfl⟩
  simp [FakeCredentials.apply, hk]

/-- Witness for C9 at token `"user:dave"` and key `"Content-Type"`. -/
theorem claim_C9_witness :
    FakeCredentials.apply "user:dave" (fun _ => none) none "Authorization"
      = some ("Bearer " ++ "user:dave") ∧
    FakeCredentials.apply "user:dave" (fun _ => none) none "Content-Type" = none := by
  obtain ⟨h1, h2, _⟩ := claim_C9 "user:dave" (fun _ => none) none "Content-Type"
  exact ⟨h1, h2 (by decide)⟩

/-- Claim C10: ish mode is enabled iff the lowercased `ISH_MODE` value
equals `"true"`: with any other value (e.g. `"1"`, `"yes"`, or unset)
and no base-URL parameter the facade is constructed in production
addressing; with `"true"` (and a truthy base URL) it is constructed in
ish addressing; and `FakeCredentials.apply` ignores its optional token
override, always emitting the stored token. -/
theorem claim_C10 (env : IshEnv) (c : Creds) (tok : Option String)
    (self_token : String) (headers : String → Option String) (o o' : Option String) :
    (strLower (env.ish_mode.getD "") ≠ "true" →
      GmailService.init env (some c) none tok = .ok ⟨c, false, none⟩) ∧
    (strLower (env.ish_mode.getD "") = "true" →
      env.ish_base_url.getD "http://localhost:9000" ≠ "" →
      GmailService.init env none none none
        = .ok ⟨.fake (FakeCredentials.resolveToken env none none), true,
            some (env.ish_base_url.getD "http://localhost:9000")⟩) ∧
    FakeCredentials.apply self_token headers o
      = FakeCredentials.apply self_token headers o' := by
  refine ⟨fun hmode => ?_, fun hmode hb => ?_, rfl⟩
  · simp [GmailService.init, truthy, hmode]
  · simp [GmailService.init, truthy, hmode, hb]

/-- Witness for C10: `ISH_MODE=1` stays in production addressing,
`ISH_MODE=TRUE` with `ISH_BASE_URL=http://localhost:8888` enables ish
addressing, and `apply` with and without an override coincide. -/
theorem claim_C10_witness :
    GmailService.init ⟨some "1", none, none⟩ (some .real) none none
      = .ok ⟨.real, false, none⟩ ∧
    GmailService.init ⟨some "TRUE", some "http://localhost:8888", none⟩ none none none
      = .ok ⟨.fake "user:testuser", true, some "http://localhost:8888"⟩ ∧
    FakeCredentials.apply "tok" (fun _ => none) (some "override")
      = FakeCredentials.apply "tok" (fun _ => none) none := by
  obtain ⟨h1, _, _⟩ := claim_C10 ⟨some "1", none, none⟩ Creds.real none "tok"
    (fun _ => none) (some "override") none
  obtain ⟨_, h2, h3⟩ := claim_C10 ⟨some "TRUE", some "http://localhost:8888", none⟩
    Creds.real none "tok" (fun _ => none) (some "override") none
  exact ⟨h1 (by decide), h2 (by decide) (by decide), h3⟩

end GsuiteMcp
